import Mathlib

/-!
Shallow embedding of the travel-planner backend core
(`src/backend/app`): data model, session store with TTL, extraction
pipeline and chat-agent orchestration, together with theorems checking
the natural-language specification against this embedding.

Conventions of the embedding:
* Python `datetime` values are abstract integer instants (`Int`); a
  `timedelta` comparison `now - last_activity > timedelta(seconds=ttl)`
  becomes `now - last_activity > ttl` over `Int` with `ttl` expressed in
  the same abstract unit.
* The Python `dict[str, Session]` store is an association list
  `List (String × Session)`; `dict.get` is `List.lookup`, `del` removes
  the entry, and item assignment replaces in place or appends
  (preserving insertion order, as Python dicts do).
* Nondeterministic effects (uuid4, clocks, the LLM round trip) are
  passed in as explicit arguments, so every operation is a pure
  function of its inputs.
* Python exceptions become `Except` values over an explicit exception
  type; a FastAPI handler returns `Except HTTPErr α`.
-/

set_option autoImplicit false

namespace TravelPlanner

/-! ### Data model (`app/models/place.py`, `video.py`, `chat.py`, `session.py`) -/

/-- `PlaceType(str, Enum)` from `app/models/place.py`. -/
inductive PlaceType where
  | restaurant
  | attraction
  | hotel
  | activity
  | coffee_shop
  | shopping
  | other
deriving DecidableEq, Repr

/-- The `.value` string of each `PlaceType` member. -/
def PlaceType.value : PlaceType → String
  | .restaurant => "restaurant"
  | .attraction => "attraction"
  | .hotel => "hotel"
  | .activity => "activity"
  | .coffee_shop => "coffee_shop"
  | .shopping => "shopping"
  | .other => "other"

/-- The enum constructor `PlaceType(s)`: `some` member whose `.value`
equals `s`, otherwise `none` (Python raises `ValueError`, which
`search_places` catches). -/
def PlaceType.fromString : String → Option PlaceType
  | "restaurant" => some .restaurant
  | "attraction" => some .attraction
  | "hotel" => some .hotel
  | "activity" => some .activity
  | "coffee_shop" => some .coffee_shop
  | "shopping" => some .shopping
  | "other" => some .other
  | _ => none

/-- `Place(BaseModel)` from `app/models/place.py`. Note: the model
declares exactly the fields below — in particular it declares no
boolean preference fields. -/
structure Place where
  id : String
  name : String
  type : PlaceType
  description : String
  video_id : String
  timestamp_seconds : Option Int
  mentioned_context : String
  address : Option String
  neighborhood : Option String
  created_at : Int
deriving DecidableEq, Repr

/-- The declared pydantic fields of `Place`, in declaration order.
Pydantic `BaseModel.__setattr__` consults this set: assigning an
attribute that is not a declared field raises `ValueError`. -/
def Place.fieldNames : List String :=
  ["id", "name", "type", "description", "video_id", "timestamp_seconds",
   "mentioned_context", "address", "neighborhood", "created_at"]

/-- `Video(BaseModel)` from `app/models/video.py`. -/
structure Video where
  video_id : String
  title : String
  description : Option String
  summary : Option String
  duration_seconds : Int
  transcript : String
  url : String
  places_count : Option Int
deriving DecidableEq, Repr

/-- `ChatMessage(BaseModel)` from `app/models/chat.py`. -/
structure ChatMessage where
  role : String
  content : String
  timestamp : Int
  places_referenced : List String
deriving DecidableEq, Repr

/-- `Session(BaseModel)` from `app/models/session.py`. -/
structure Session where
  session_id : String
  videos : List Video
  places : List Place
  chat_history : List ChatMessage
  created_at : Int
  last_activity : Int
deriving DecidableEq, Repr

/-- `Session()` with all defaults: the fresh uuid4 id is supplied as
`freshId`, both timestamps are `datetime.utcnow()` = `now`, and the
three collections default to empty lists. -/
def Session.fresh (freshId : String) (now : Int) : Session :=
  { session_id := freshId
    videos := []
    places := []
    chat_history := []
    created_at := now
    last_activity := now }

/-! ### Python exceptions (`app/utils/errors.py`, pydantic, FastAPI) -/

/-- The exceptions that can flow through the embedded code paths. -/
inductive PyExc where
  /-- `ValueError`, e.g. raised by pydantic `__setattr__` on an
  undeclared field. -/
  | valueError (msg : String)
  /-- `InvalidSessionError` from `app/utils/errors.py`. -/
  | invalidSession (msg : String)
  /-- `fastapi.HTTPException` raised inside a handler body. -/
  | httpException (status : Nat) (detail : String)
  /-- Any other exception (LLM provider failures, parse errors, ...),
  identified by its `str()` rendering. -/
  | otherExc (msg : String)
deriving DecidableEq, Repr

/-- Python `str(e)` for the exceptions above. -/
def PyExc.pyStr : PyExc → String
  | .valueError msg => msg
  | .invalidSession msg => msg
  | .httpException status detail => toString status ++ ": " ++ detail
  | .otherExc msg => msg

/-- The HTTP error a FastAPI route hands back to the framework. -/
structure HTTPErr where
  status : Nat
  detail : String
deriving DecidableEq, Repr

/-! ### Session store (`app/services/session_manager.py`) -/

/-- The in-memory store `self._sessions : dict[str, Session]`. -/
abbrev Store := List (String × Session)

/-- Python `del d[k]` on the dict, as entry removal. -/
def eraseKey (store : Store) (k : String) : Store :=
  store.filter (fun e => !(e.1 == k))

/-- Python `d[k] = v` on the dict: replace in place when the key is
present (keeping its position, as Python dicts do), else append. -/
def dictSet (store : Store) (k : String) (v : Session) : Store :=
  if (store.lookup k).isSome then
    store.map (fun e => if e.1 == k then (k, v) else e)
  else
    store ++ [(k, v)]

/-- `SessionManager.create_session`: builds `Session()` (fresh id
`freshId`, timestamps `now`) and stores it under its id. -/
def create_session (store : Store) (freshId : String) (now : Int) :
    Session × Store :=
  let session := Session.fresh freshId now
  (session, dictSet store session.session_id session)

/-- `SessionManager.get_session`: returns the session when present and
not idle past the TTL; evicts and raises `InvalidSessionError` when
present but expired; raises `InvalidSessionError` when absent. Returns
the possibly-mutated store alongside the outcome. -/
def get_session (store : Store) (now ttl : Int) (session_id : String) :
    Except PyExc Session × Store :=
  match store.lookup session_id with
  | none =>
      (.error (.invalidSession ("Session not found: " ++ session_id)), store)
  | some session =>
      if now - session.last_activity > ttl then
        (.error (.invalidSession ("Session expired: " ++ session_id)),
         eraseKey store session_id)
      else
        (.ok session, store)

/-- `SessionManager.get_or_create_session`: `if not session_id` (None
or empty string) create a fresh session; else look the id up and
create a fresh session only when absent. The existing-id path performs
no TTL check and never fails. -/
def get_or_create_session (store : Store) (session_id : Option String)
    (freshId : String) (now : Int) : Session × Store :=
  match session_id with
  | none => create_session store freshId now
  | some i =>
      if i == "" then create_session store freshId now
      else
        match store.lookup i with
        | none => create_session store freshId now
        | some s => (s, store)

/-- `SessionManager.update_session`: refreshes `last_activity` to `now`
and upserts by id. Returns the mutated session (callers keep using the
same object) and the new store. -/
def update_session (store : Store) (session : Session) (now : Int) :
    Session × Store :=
  let session := { session with last_activity := now }
  (session, dictSet store session.session_id session)

/-- `SessionManager.delete_session`. -/
def delete_session (store : Store) (session_id : String) :
    Except PyExc Unit × Store :=
  match store.lookup session_id with
  | none =>
      (.error (.invalidSession ("Session not found: " ++ session_id)), store)
  | some _ => (.ok (), eraseKey store session_id)

/-- `SessionManager.get_session_count`: `len(self._sessions)`. -/
def get_session_count (store : Store) : Nat :=
  store.length

/-! ### Extraction pipeline (`app/agents/extraction.py`) -/

/-- `ExtractedPlace(BaseModel)`: the per-place shape of the LLM's
schema-constrained output. -/
structure ExtractedPlace where
  name : String
  type : PlaceType
  description : String
  timestamp_seconds : Option Int
  mentioned_context : String
  address : Option String
  neighborhood : Option String
deriving DecidableEq, Repr

/-- `LLMExtractionResult(BaseModel)`: the whole schema-constrained
output of the extraction call. -/
structure LLMExtractionResult where
  suggested_title : String
  suggested_summary : String
  places : List ExtractedPlace
deriving DecidableEq, Repr

/-- `PlaceExtractionResult(BaseModel)`: the value
`extract_places_from_video` returns. -/
structure PlaceExtractionResult where
  suggested_title : String
  suggested_summary : String
  places : List Place
deriving DecidableEq, Repr

/-- `ExtractionError` from `app/utils/errors.py`, with the `from e`
cause chain made explicit. -/
structure ExtractionErr where
  message : String
  cause : PyExc
deriving DecidableEq, Repr

/-- One `Place(...)` construction inside the list comprehension of
`extract_places_from_video`: the `ip.1`-th fresh uuid, the extracted
fields, the owning video's id, `created_at = now`. -/
def extractedToPlace (video : Video) (freshIds : Nat → String) (now : Int)
    (ip : Nat × ExtractedPlace) : Place :=
  { id := freshIds ip.1
    name := ip.2.name
    type := ip.2.type
    description := ip.2.description
    video_id := video.video_id
    timestamp_seconds := ip.2.timestamp_seconds
    mentioned_context := ip.2.mentioned_context
    address := ip.2.address
    neighborhood := ip.2.neighborhood
    created_at := now }

/-- `extract_places_from_video` from `app/agents/extraction.py`.

The awaited `llm_client.invoke_structured(messages, LLMExtractionResult)`
round trip is the oracle argument `llm`: `.ok` is a successfully parsed
structured response, `.error e` is any exception it raised (provider
failure or schema/validation failure). Each `Place(...)` construction
draws `str(uuid4())` from the supply `freshIds` in order and stamps
`created_at = now`. Any exception is wrapped into `ExtractionError`
whose message names the video and whose cause is the original
exception. -/
def extract_places_from_video (video : Video)
    (llm : Except PyExc LLMExtractionResult)
    (freshIds : Nat → String) (now : Int) :
    Except ExtractionErr PlaceExtractionResult :=
  match llm with
  | .error e =>
      .error { message := "Failed to extract places from video " ++
                 video.video_id ++ ": " ++ e.pyStr
               cause := e }
  | .ok result =>
      let suggested_title :=
        if result.suggested_title == "" then "Video " ++ video.video_id
        else result.suggested_title
      let suggested_summary :=
        if result.suggested_summary == "" then "" else result.suggested_summary
      let places := result.places.enum.map (extractedToPlace video freshIds now)
      .ok { suggested_title := suggested_title
            suggested_summary := suggested_summary
            places := places }

/-! ### Place-preference route (`app/api/routes/places.py`) -/

/-- The `preference` literal of `UpdatePlacePreferenceRequest`. -/
inductive PrefValue where
  | interested
  | not_interested
  | neutral
deriving DecidableEq, Repr

/-- Pydantic `BaseModel.__setattr__` on a `Place` for a boolean
attribute: assigning an attribute that is not among the model's
declared fields raises
`ValueError: "Place" object has no field "<name>"`. No declared field
of `Place` is boolean, so the (unreachable for the route's
assignments) declared-field branch leaves the record unchanged. -/
def Place.setattrBool (p : Place) (field : String) (_value : Bool) :
    Except PyExc Place :=
  if Place.fieldNames.contains field then
    .ok p
  else
    .error (.valueError
      ("\x22Place\x22 object has no field \x22" ++ field ++ "\x22"))

/-- The preference-assignment block of `update_place_preference`
(lines 55-63 of `app/api/routes/places.py`): two attribute assignments
per branch, each an independent `__setattr__`. -/
def applyPreference (place : Place) (pref : PrefValue) :
    Except PyExc Place :=
  match pref with
  | .interested => do
      let place ← place.setattrBool "is_interested" true
      let place ← place.setattrBool "is_not_interested" false
      pure place
  | .not_interested => do
      let place ← place.setattrBool "is_interested" false
      let place ← place.setattrBool "is_not_interested" true
      pure place
  | .neutral => do
      let place ← place.setattrBool "is_interested" false
      let place ← place.setattrBool "is_not_interested" false
      pure place

/-- The `except` chain of the route: `InvalidSessionError` maps to 404
with `str(e)`; every other exception (including an `HTTPException`
raised inside the `try` body, which the generic handler also catches)
maps to 500 with `str(e)`. -/
def placesRouteWrap (e : PyExc) : HTTPErr :=
  match e with
  | .invalidSession msg => { status := 404, detail := msg }
  | e => { status := 500, detail := e.pyStr }

/-- `update_place_preference` from `app/api/routes/places.py`:
resolve the session via `get_session` (TTL check and possible
eviction), find the place by id, run the preference-assignment block,
refresh the session via `update_session`, and return the place.
Exceptions are translated by the route's `except` chain. -/
def update_place_preference (store : Store) (now ttl : Int)
    (session_id place_id : String) (pref : PrefValue) :
    Except HTTPErr Place × Store :=
  match get_session store now ttl session_id with
  | (.error e, store1) => (.error (placesRouteWrap e), store1)
  | (.ok session, store1) =>
      match session.places.find? (fun p => p.id == place_id) with
      | none =>
          (.error (placesRouteWrap (.httpException 404 "Place not found")),
           store1)
      | some place =>
          match applyPreference place pref with
          | .error e => (.error (placesRouteWrap e), store1)
          | .ok place2 =>
              -- in Python the assignments mutate the object inside
              -- `session.places`; reflected here by replacement
              let session2 := { session with
                places := session.places.map
                  (fun p => if p.id == place_id then place2 else p) }
              let store2 := (update_session store1 session2 now).2
              (.ok place2, store2)

/-! ### Chat agent tools (`app/services/chat_agent.py`) -/

/-- Whether `needle` occurs at the start of `hay` (over char lists). -/
def charsStartWith : List Char → List Char → Bool
  | [], _ => true
  | _ :: _, [] => false
  | n :: ns, h :: hs => n == h && charsStartWith ns hs

/-- Whether `needle` occurs contiguously anywhere in `hay`. -/
def charsContain (needle : List Char) : List Char → Bool
  | [] => needle.isEmpty
  | c :: hs => charsStartWith needle (c :: hs) || charsContain needle hs

/-- The message substring check used in the extraction theorems:
`needle` occurs contiguously in `hay`. -/
def strContains (hay needle : String) : Bool :=
  charsContain needle.toList hay.toList

/-- Case-insensitive substring test: Python
`needle.lower() in hay.lower()` (ASCII case folding). -/
def lowerContains (hay needle : String) : Bool :=
  charsContain needle.toLower.toList hay.toLower.toList

/-- The dict a search result is converted to for tool output
(lines 57-68 of `app/services/chat_agent.py`). -/
structure SearchResult where
  name : String
  type : String
  description : String
  mentioned_context : String
  video_id : String
  timestamp_seconds : Option Int
deriving DecidableEq, Repr

/-- The per-place dict conversion at the end of `search_places`. -/
def placeToDict (p : Place) : SearchResult :=
  { name := p.name
    type := p.type.value
    description := p.description
    mentioned_context := p.mentioned_context
    video_id := p.video_id
    timestamp_seconds := p.timestamp_seconds }

/-- The closure `search_places` built by `create_search_places_tool`:
optional type filter (unrecognized value only logs a warning), optional
case-insensitive substring query over name/description/context, then
`results[:limit]` and dict conversion. -/
def search_places (places : List Place) (query place_type : String)
    (limit : Nat) : List SearchResult :=
  let results := places
  let results :=
    if place_type ≠ "" then
      match PlaceType.fromString place_type.toLower with
      | some filter_type => results.filter (fun p => p.type == filter_type)
      | none => results
    else results
  let results :=
    if query ≠ "" then
      results.filter (fun p =>
        lowerContains p.name query ||
        lowerContains p.description query ||
        lowerContains p.mentioned_context query)
    else results
  (results.take limit).map placeToDict

/-- The closure `get_video_transcript` built by
`create_get_transcript_tool`: first video with a matching id, or a
textual not-found sentinel. -/
def get_video_transcript (session : Session) (video_id : String) :
    String :=
  match session.videos.find? (fun v => v.video_id == video_id) with
  | some video =>
      "Transcript for \x27" ++ video.title ++ "\x27:\n\n" ++
        video.transcript
  | none => "Video " ++ video_id ++ " not found in session."

/-! ### Chat orchestration (`app/services/chat_agent.py`,
`chat_with_agent`) -/

/-- One tool invocation requested by the model. The code dispatches on
the string `tool_call["name"]`; `other` covers any name that is
neither `"search_places"` nor `"get_video_transcript"` (such a call is
skipped). Arguments carry the defaults (`query=""`, `place_type=""`,
`limit=10`) already applied by the tool layer. -/
inductive ToolCall where
  | search (query place_type : String) (limit : Nat)
  | transcript (video_id : String)
  | other (name : String)
deriving DecidableEq, Repr

/-- One entry of `tool_results`: a search invocation yields a Python
`list` (of dicts), a transcript invocation yields a `str`. The
`isinstance(tool_results[0], list)` test distinguishes the two. -/
inductive ToolResult where
  | searchRes (r : List SearchResult)
  | textRes (s : String)
deriving DecidableEq, Repr

/-- The referenced-place tracking for one search invocation: each
returned dict is matched back against `session.places` by exact
name + video-id equality (`next(...)` takes the first match), and the
match's id is appended; dicts with no match contribute nothing. -/
def trackReferenced (places : List Place) (dicts : List SearchResult) :
    List String :=
  dicts.filterMap (fun d =>
    (places.find? (fun p => p.name == d.name && p.video_id == d.video_id)).map
      Place.id)

/-- The tool-execution loop of `chat_with_agent` (lines 204-234):
walks the requested tool calls in order, collecting `tool_results` and
`referenced_place_ids`. -/
def execToolCalls (session : Session) :
    List ToolCall → List ToolResult × List String
  | [] => ([], [])
  | .search q pt lim :: rest =>
      let r := search_places session.places q pt lim
      (.searchRes r :: (execToolCalls session rest).1,
       trackReferenced session.places r ++ (execToolCalls session rest).2)
  | .transcript vid :: rest =>
      (.textRes (get_video_transcript session vid) ::
        (execToolCalls session rest).1,
       (execToolCalls session rest).2)
  | .other _ :: rest => execToolCalls session rest

/-- The reply-synthesis block for search results (lines 239-252):
formats up to the first 5 dicts, or an explicit no-matches message. -/
def formatSearchResponse (places_found : List SearchResult) : String :=
  if places_found ≠ [] then
    "I found " ++ toString places_found.length ++
      " relevant place(s):\n\n" ++
      String.join ((places_found.take 5).map (fun place =>
        "**" ++ place.name ++ "** (" ++ place.type ++ ")\n" ++
          place.description ++ "\n_" ++ place.mentioned_context ++
          "_\n\n"))
  else
    "I couldn\x27t find any places matching your criteria. " ++
      "Try a different search term or ask me about the available places!"

/-- The model's response to the (externally performed) `ainvoke`: its
text content and the tool calls it requests. -/
structure LLMResponse where
  content : String
  tool_calls : List ToolCall
deriving DecidableEq, Repr

/-- `chat_with_agent` from `app/services/chat_agent.py`, with the LLM
round trip abstracted as the oracle `response`: when tool calls are
requested they are executed in order; the final reply is synthesized
from `tool_results[0]` when that first result is a search-result list,
and is the model's direct content otherwise. Returns
`(final_response, referenced_place_ids)`. -/
def chat_with_agent (session : Session) (response : LLMResponse) :
    String × List String :=
  if response.tool_calls ≠ [] then
    let tool_results := (execToolCalls session response.tool_calls).1
    let referenced_place_ids := (execToolCalls session response.tool_calls).2
    let final_response :=
      match tool_results with
      | .searchRes places_found :: _ => formatSearchResponse places_found
      | _ => response.content
    (final_response, referenced_place_ids)
  else
    (response.content, [])

/-! ### Chat endpoint (`app/api/routes/chat.py`) -/

/-- `ChatSource(BaseModel)`. -/
structure ChatSource where
  video_id : String
  title : String
  timestamp : Option Int
deriving DecidableEq, Repr

/-- `ChatResponse(BaseModel)`: note its fields — no session id. -/
structure ChatResponse where
  message : String
  places_referenced : List String
  sources : List ChatSource
deriving DecidableEq, Repr

/-- The `chat` route handler (`app/api/routes/chat.py`): resolves the
session via `get_or_create_session` (which never fails), runs the chat
agent, appends the user/assistant message pair to the session's
history, refreshes the session via `update_session`, and assembles the
response with up to 5 sources resolved from the referenced places. The
LLM round trip is the oracle `response`; fresh uuid4/clock effects are
the `freshId`/`now` arguments. -/
def chat_endpoint (store : Store) (req_session_id : Option String)
    (message : String) (response : LLMResponse) (freshId : String)
    (now : Int) : ChatResponse × Store :=
  let session := (get_or_create_session store req_session_id freshId now).1
  let store1 := (get_or_create_session store req_session_id freshId now).2
  let response_text := (chat_with_agent session response).1
  let referenced_place_ids := (chat_with_agent session response).2
  let user_msg : ChatMessage :=
    { role := "user", content := message, timestamp := now
      places_referenced := [] }
  let assistant_msg : ChatMessage :=
    { role := "assistant", content := response_text, timestamp := now
      places_referenced := referenced_place_ids }
  let session2 := { session with
    chat_history := session.chat_history ++ [user_msg, assistant_msg] }
  let store2 := (update_session store1 session2 now).2
  let sources := (referenced_place_ids.take 5).filterMap (fun place_id =>
    (session2.places.find? (fun p => p.id == place_id)).bind (fun place =>
      (session2.videos.find? (fun v => v.video_id == place.video_id)).map
        (fun video =>
          { video_id := video.video_id
            title := video.title
            timestamp := place.timestamp_seconds : ChatSource })))
  ({ message := response_text
     places_referenced := referenced_place_ids
     sources := sources }, store2)

/-! ### Spec-side characterizations and concrete fixtures
(used only in theorems; the definitions above are the embedding of the
source) -/

/-- Spec-side category-filter predicate (from the spec's place-search
tool contract): with no filter every place passes; a recognized filter
value (case-insensitive) must match the place's category; an
unrecognized value is ignored. -/
def matchesTypeFilter (place_type : String) (p : Place) : Bool :=
  place_type == "" ||
    match PlaceType.fromString place_type.toLower with
    | some t => p.type == t
    | none => true

/-- Spec-side query predicate (from the spec's place-search tool
contract): with no query every place passes; otherwise the query must
occur case-insensitively in the name, the description or the
mentioned-context. -/
def matchesQuery (query : String) (p : Place) : Bool :=
  query == "" || lowerContains p.name query ||
    lowerContains p.description query ||
    lowerContains p.mentioned_context query

/-- Spec-side characterization of the referenced-place accumulator of
a chat turn: for every search invocation, in request order, each
returned dict is matched back to the first canonical Place with the
same name and video id and that place's id is appended (duplicates
permitted); other tool calls contribute nothing. -/
def referencedIdsSpec (session : Session) : List ToolCall → List String
  | [] => []
  | .search q pt lim :: rest =>
      trackReferenced session.places (search_places session.places q pt lim) ++
        referencedIdsSpec session rest
  | .transcript _ :: rest => referencedIdsSpec session rest
  | .other _ :: rest => referencedIdsSpec session rest

/-- Fixture: a stored place for the preference-update claim. -/
def c1Place : Place :=
  { id := "p1", name := "Le Bistro", type := .restaurant,
    description := "A cozy bistro", video_id := "v1",
    timestamp_seconds := some 42, mentioned_context := "Loved it",
    address := none, neighborhood := none, created_at := 0 }

/-- Fixture: a live session holding `c1Place`. -/
def c1Session : Session :=
  { session_id := "s1", videos := [], places := [c1Place],
    chat_history := [], created_at := 0, last_activity := 0 }

/-- Fixture: a store holding `c1Session`. -/
def c1Store : Store := [("s1", c1Session)]

/-- Fixture: a video for the chat-orchestration claims. -/
def c6Video : Video :=
  { video_id := "v1", title := "Tokyo Guide", description := none,
    summary := none, duration_seconds := 600,
    transcript := "transcript text", url := "u", places_count := none }

/-- Fixture: a place for the chat-orchestration claims. -/
def c6Place : Place :=
  { id := "p6", name := "Blue Bottle", type := .coffee_shop,
    description := "good coffee", video_id := "v1",
    timestamp_seconds := none, mentioned_context := "must visit",
    address := none, neighborhood := none, created_at := 0 }

/-- Fixture: a session with one video and one place. -/
def c6Session : Session :=
  { session_id := "s6", videos := [c6Video], places := [c6Place],
    chat_history := [], created_at := 0, last_activity := 0 }

/-- Fixture: an LLM response that requests a transcript lookup first
and a place search second. -/
def c6Response : LLMResponse :=
  { content := "MODEL TEXT", tool_calls := [.transcript "v1", .search "" "" 10] }

/-- Fixture: a video for the transcript-tool claim. -/
def c8Video : Video :=
  { video_id := "v1", title := "T1", description := none, summary := none,
    duration_seconds := 10, transcript := "hello transcript", url := "u",
    places_count := none }

/-- Fixture: a session holding `c8Video`. -/
def c8Session : Session :=
  { session_id := "s8", videos := [c8Video], places := [],
    chat_history := [], created_at := 0, last_activity := 0 }

/-! ## Store lemmas -/

theorem dictSet_lookup_self (store : Store) (k : String) (v : Session) :
    (dictSet store k v).lookup k = some v := by
  induction store with
  | nil => simp [dictSet]
  | cons e t ih =>
    obtain ⟨k1, v1⟩ := e
    by_cases he : k1 = k
    · subst he
      simp [dictSet, List.lookup_cons]
    · have hbe : (k == k1) = false := by simp [Ne.symm he]
      have hbe2 : (k1 == k) = false := by simp [he]
      by_cases ht : ((t : Store).lookup k).isSome
      · have ih2 := ih
        simp only [dictSet, ht, if_true] at ih2
        simp only [dictSet, List.lookup_cons, hbe, ht, if_true, List.map_cons,
          hbe2, if_false]
        simpa [List.lookup_cons, hbe] using ih2
      · have ih2 := ih
        simp only [dictSet, ht, if_false] at ih2
        simp only [dictSet, List.lookup_cons, hbe, ht, if_false,
          List.cons_append]
        simpa [List.lookup_cons, hbe] using ih2

theorem eraseKey_lookup_self (store : Store) (k : String) :
    (eraseKey store k).lookup k = none := by
  rw [List.lookup_eq_none_iff]
  intro p hp
  have h := List.of_mem_filter hp
  simp only [Bool.not_eq_true', beq_eq_false_iff_ne] at h
  simpa [bne_iff_ne] using Ne.symm h

theorem eraseKey_length_lt (store : Store) (k : String) (s : Session)
    (h : store.lookup k = some s) :
    (eraseKey store k).length < store.length := by
  induction store with
  | nil => simp at h
  | cons e t ih =>
    obtain ⟨k1, v1⟩ := e
    by_cases he : k = k1
    · subst he
      simp only [eraseKey, List.filter_cons, beq_self_eq_true,
        Bool.not_true, List.length_cons]
      exact Nat.lt_succ_of_le (List.length_filter_le _ _)
    · have hbe : (k == k1) = false := by simp [he]
      have hbe2 : (k1 == k) = false := by simp [Ne.symm he]
      rw [List.lookup_cons] at h
      simp only [hbe] at h
      have := ih h
      simp only [eraseKey, List.filter_cons, hbe2, Bool.not_false,
        if_true, List.length_cons] at *
      omega

theorem get_or_create_session_fresh (store : Store) (sid : Option String)
    (freshId : String) (now : Int)
    (h : sid = none ∨ sid = some "" ∨
      ∃ i, sid = some i ∧ store.lookup i = none) :
    get_or_create_session store sid freshId now =
      (Session.fresh freshId now,
       dictSet store freshId (Session.fresh freshId now)) := by
  rcases h with h | h | ⟨i, hi, hnone⟩
  · subst h; rfl
  · subst h; rfl
  · subst hi
    by_cases hie : i = ""
    · subst hie
      simp [get_or_create_session, create_session, Session.fresh]
    · simp [get_or_create_session, create_session, Session.fresh, hie,
        hnone]

/-! ## Claim theorems -/

/-- C2: for a stored session, `get_session` returns it when
`now - last_activity ≤ ttl` (in particular at exactly `ttl`), leaving
the store unchanged; when `now - last_activity > ttl` it evicts the
session as a side effect and fails with the expired error, so the id
no longer resolves and the `count()` result strictly drops; for an
absent id it fails with the not-found error without changing the
store. -/
theorem claim_C2_get_session_ttl (store : Store) (now ttl : Int)
    (sid : String) :
    (∀ s : Session, store.lookup sid = some s →
      now - s.last_activity ≤ ttl →
      get_session store now ttl sid = (.ok s, store)) ∧
    (∀ s : Session, store.lookup sid = some s →
      now - s.last_activity > ttl →
      get_session store now ttl sid =
        (.error (.invalidSession ("Session expired: " ++ sid)),
         eraseKey store sid) ∧
      (get_session store now ttl sid).2.lookup sid = none ∧
      get_session_count (get_session store now ttl sid).2 <
        get_session_count store) ∧
    (store.lookup sid = none →
      get_session store now ttl sid =
        (.error (.invalidSession ("Session not found: " ++ sid)), store)) := by
  refine ⟨?_, ?_, ?_⟩
  · intro s hs hle
    simp [get_session, hs, not_lt_of_le hle]
  · intro s hs hgt
    have h1 : get_session store now ttl sid =
        (.error (.invalidSession ("Session expired: " ++ sid)),
         eraseKey store sid) := by
      simp [get_session, hs, hgt]
    refine ⟨h1, ?_, ?_⟩
    · rw [h1]
      exact eraseKey_lookup_self store sid
    · rw [h1]
      exact eraseKey_length_lt store sid s hs
  · intro hnone
    simp [get_session, hnone]

/-- Concrete instance of `claim_C2_get_session_ttl`: a session whose
last activity is exactly `ttl` old is still returned; one unit past
`ttl`, `get_session` evicts it and the id stops resolving. -/
theorem claim_C2_get_session_ttl_witness :
    get_session [("s1", Session.fresh "s1" 0)] 3600 3600 "s1" =
      (.ok (Session.fresh "s1" 0), [("s1", Session.fresh "s1" 0)]) ∧
    (get_session [("s1", Session.fresh "s1" 0)] 3601 3600 "s1").2.lookup
      "s1" = none ∧
    get_session [] 0 3600 "zz" =
      (.error (.invalidSession ("Session not found: " ++ "zz")), []) := by
  refine ⟨?_, ?_, ?_⟩
  · exact (claim_C2_get_session_ttl [("s1", Session.fresh "s1" 0)]
      3600 3600 "s1").1 (Session.fresh "s1" 0) (by rfl) (by decide)
  · exact ((claim_C2_get_session_ttl [("s1", Session.fresh "s1" 0)]
      3601 3600 "s1").2.1 (Session.fresh "s1" 0) (by rfl) (by decide)).2.1
  · exact (claim_C2_get_session_ttl [] 0 3600 "zz").2.2 (by rfl)

/-- C3: `get_or_create_session` with a falsy (None/empty) or absent id
creates, stores and returns a fresh session with empty collections; a
present id returns the stored session as-is with the store unchanged —
the function consults no clock or TTL at all on that path (it takes no
such inputs), so an expired-but-not-yet-reaped session is returned
rather than evicted — and the operation is a total function (it never
fails). -/
theorem claim_C3_get_or_create (store : Store) (sid : Option String)
    (freshId : String) (now : Int) :
    ((sid = none ∨ sid = some "" ∨
        (∃ i, sid = some i ∧ store.lookup i = none)) →
      get_or_create_session store sid freshId now =
        (Session.fresh freshId now,
         dictSet store freshId (Session.fresh freshId now)) ∧
      (Session.fresh freshId now).videos = [] ∧
      (Session.fresh freshId now).places = [] ∧
      (Session.fresh freshId now).chat_history = [] ∧
      (dictSet store freshId (Session.fresh freshId now)).lookup freshId =
        some (Session.fresh freshId now)) ∧
    (∀ (i : String) (s : Session), sid = some i → i ≠ "" →
      store.lookup i = some s →
      get_or_create_session store sid freshId now = (s, store)) := by
  constructor
  · intro h
    exact ⟨get_or_create_session_fresh store sid freshId now h, rfl, rfl,
      rfl, dictSet_lookup_self store freshId _⟩
  · intro i s hi hie hsome
    subst hi
    simp [get_or_create_session, hie, hsome]

/-- Concrete instance of `claim_C3_get_or_create`: an absent id yields
a stored fresh empty session; a present id (here one whose
last-activity is far in the past, i.e. expired for any positive TTL)
is returned as-is with the store untouched. -/
theorem claim_C3_get_or_create_witness :
    (get_or_create_session [("s1", Session.fresh "s1" 0)] (some "zz")
        "f1" 9 =
      (Session.fresh "f1" 9,
       dictSet [("s1", Session.fresh "s1" 0)] "f1" (Session.fresh "f1" 9))) ∧
    get_or_create_session [("s1", Session.fresh "s1" 0)] (some "s1")
        "f1" 999999 =
      (Session.fresh "s1" 0, [("s1", Session.fresh "s1" 0)]) := by
  constructor
  · exact ((claim_C3_get_or_create [("s1", Session.fresh "s1" 0)]
      (some "zz") "f1" 9).1 (Or.inr (Or.inr ⟨"zz", rfl, by rfl⟩))).1
  · exact (claim_C3_get_or_create [("s1", Session.fresh "s1" 0)]
      (some "s1") "f1" 999999).2 "s1" (Session.fresh "s1" 0) rfl
      (by decide) (by rfl)

/-- C9: calling `get_or_create_session` twice with the same existing
(non-expired) id returns the very same session both times — same id,
videos, places and chat history — and leaves the store unchanged after
both calls. -/
theorem claim_C9_get_or_create_idempotent (store : Store) (i : String)
    (s : Session) (fresh1 fresh2 : String) (now1 now2 ttl : Int)
    (hi : i ≠ "") (hs : store.lookup i = some s)
    (_hlive : now1 - s.last_activity ≤ ttl) :
    get_or_create_session store (some i) fresh1 now1 = (s, store) ∧
    get_or_create_session
      ((get_or_create_session store (some i) fresh1 now1).2)
      (some i) fresh2 now2 = (s, store) ∧
    (get_or_create_session store (some i) fresh1 now1).1.session_id =
      (get_or_create_session
        ((get_or_create_session store (some i) fresh1 now1).2)
        (some i) fresh2 now2).1.session_id ∧
    (get_or_create_session store (some i) fresh1 now1).1.videos =
      (get_or_create_session
        ((get_or_create_session store (some i) fresh1 now1).2)
        (some i) fresh2 now2).1.videos ∧
    (get_or_create_session store (some i) fresh1 now1).1.places =
      (get_or_create_session
        ((get_or_create_session store (some i) fresh1 now1).2)
        (some i) fresh2 now2).1.places ∧
    (get_or_create_session store (some i) fresh1 now1).1.chat_history =
      (get_or_create_session
        ((get_or_create_session store (some i) fresh1 now1).2)
        (some i) fresh2 now2).1.chat_history := by
  have h1 : get_or_create_session store (some i) fresh1 now1 = (s, store) := by
    simp [get_or_create_session, hi, hs]
  have h2 : get_or_create_session
      ((get_or_create_session store (some i) fresh1 now1).2)
      (some i) fresh2 now2 = (s, store) := by
    rw [h1]
    simp [get_or_create_session, hi, hs]
  refine ⟨h1, h2, ?_, ?_, ?_, ?_⟩ <;> rw [h2, h1]

/-! ## Substring lemmas (for the extraction-error message) -/

theorem charsStartWith_append (l t : List Char) :
    charsStartWith l (l ++ t) = true := by
  induction l with
  | nil => rfl
  | cons a as ih => simp [charsStartWith, ih]

theorem charsContain_nil_left (l : List Char) :
    charsContain [] l = true := by
  cases l with
  | nil => rfl
  | cons c hs => simp [charsContain, charsStartWith]

theorem charsContain_append_self (n t : List Char) :
    charsContain n (n ++ t) = true := by
  cases n with
  | nil => exact charsContain_nil_left t
  | cons a as =>
    simp [charsContain, charsStartWith, charsStartWith_append]

theorem charsContain_infix (n pre post : List Char) :
    charsContain n (pre ++ n ++ post) = true := by
  induction pre with
  | nil => simpa using charsContain_append_self n post
  | cons c cs ih =>
    show (charsStartWith n (c :: (cs ++ n ++ post)) ||
      charsContain n (cs ++ n ++ post)) = true
    rw [ih, Bool.or_true]

theorem strContains_middle (pre mid post : String) :
    strContains (pre ++ mid ++ post) mid = true := by
  have h : (pre ++ mid ++ post).toList =
      pre.toList ++ mid.toList ++ post.toList := by
    simp [String.toList]
  simp only [strContains, h]
  exact charsContain_infix mid.toList pre.toList post.toList

/-! ## Extraction claims -/

/-- C4: on every successful extraction, each emitted place carries a
freshly drawn identifier (all pairwise distinct whenever the uuid
supply is duplicate-free on the indices used, which `uuid4` is) and
the input video's id; the suggested title is the model's title when
non-empty and the synthesized `"Video {id}"` otherwise; the suggested
summary is the model's summary when non-empty and `""` otherwise (the
Lean result field is `String`, mirroring the non-optional `str` field
of `PlaceExtractionResult` — never null). -/
theorem claim_C4_extraction_output (video : Video)
    (result : LLMExtractionResult) (freshIds : Nat → String) (now : Int)
    (hfresh : (((List.range result.places.length).map freshIds)).Nodup) :
    ∃ out : PlaceExtractionResult,
      extract_places_from_video video (.ok result) freshIds now = .ok out ∧
      (∀ pl ∈ out.places, pl.video_id = video.video_id) ∧
      out.places.map Place.id = (List.range result.places.length).map freshIds ∧
      (out.places.map Place.id).Nodup ∧
      (result.suggested_title ≠ "" →
        out.suggested_title = result.suggested_title) ∧
      (result.suggested_title = "" →
        out.suggested_title = "Video " ++ video.video_id) ∧
      (result.suggested_summary ≠ "" →
        out.suggested_summary = result.suggested_summary) ∧
      (result.suggested_summary = "" →
        out.suggested_summary = "") := by
  refine ⟨_, rfl, ?_, ?_, ?_, ?_, ?_, ?_, ?_⟩
  · intro pl hpl
    simp only [extract_places_from_video, List.mem_map] at hpl
    obtain ⟨ip, _, rfl⟩ := hpl
    rfl
  · show (result.places.enum.map
        (extractedToPlace video freshIds now)).map Place.id =
      (List.range result.places.length).map freshIds
    rw [List.map_map, ← List.enum_map_fst result.places, List.map_map]
    rfl
  · show ((result.places.enum.map
        (extractedToPlace video freshIds now)).map Place.id).Nodup
    rw [List.map_map]
    rw [← List.enum_map_fst result.places, List.map_map] at hfresh
    exact hfresh
  · intro h
    have hb : (result.suggested_title == "") = false := by
      simpa using h
    simp [extract_places_from_video, hb]
  · intro h
    simp [extract_places_from_video, h]
  · intro h
    have hb : (result.suggested_summary == "") = false := by
      simpa using h
    simp [extract_places_from_video, hb]
  · intro h
    simp [extract_places_from_video, h]

/-- Concrete instance of `claim_C4_extraction_output`: two extracted
places from a model response with an empty title. -/
theorem claim_C4_extraction_output_witness :
    ∃ out : PlaceExtractionResult,
      extract_places_from_video
        { video_id := "v1", title := "T", description := none,
          summary := none, duration_seconds := 10, transcript := "t",
          url := "u", places_count := none }
        (.ok { suggested_title := "", suggested_summary := "s",
               places := [
                 { name := "A", type := .restaurant, description := "d",
                   timestamp_seconds := none, mentioned_context := "m",
                   address := none, neighborhood := none },
                 { name := "B", type := .coffee_shop, description := "d",
                   timestamp_seconds := none, mentioned_context := "m",
                   address := none, neighborhood := none }] })
        (fun n => "uuid-" ++ toString n) 7 = .ok out ∧
      (∀ pl ∈ out.places, pl.video_id = "v1") ∧
      out.places.map Place.id =
        (List.range 2).map (fun n => "uuid-" ++ toString n) ∧
      (out.places.map Place.id).Nodup ∧
      (("" : String) ≠ "" → out.suggested_title = "") ∧
      (("" : String) = "" → out.suggested_title = "Video " ++ "v1") ∧
      (("s" : String) ≠ "" → out.suggested_summary = "s") ∧
      (("s" : String) = "" → out.suggested_summary = "") := by
  exact claim_C4_extraction_output
    { video_id := "v1", title := "T", description := none,
      summary := none, duration_seconds := 10, transcript := "t",
      url := "u", places_count := none }
    { suggested_title := "", suggested_summary := "s",
      places := [
        { name := "A", type := .restaurant, description := "d",
          timestamp_seconds := none, mentioned_context := "m",
          address := none, neighborhood := none },
        { name := "B", type := .coffee_shop, description := "d",
          timestamp_seconds := none, mentioned_context := "m",
          address := none, neighborhood := none }] }
    (fun n => "uuid-" ++ toString n) 7 (by decide)

/-- C7: whenever the LLM invocation / schema validation raises any
exception, `extract_places_from_video` fails with exactly one
`ExtractionError` whose message contains the input video's id and
whose cause is the original exception; the result type admits no
partially-filled success and no other exception kind. -/
theorem claim_C7_extraction_error (video : Video) (e : PyExc)
    (freshIds : Nat → String) (now : Int) :
    ∃ err : ExtractionErr,
      extract_places_from_video video (.error e) freshIds now =
        .error err ∧
      strContains err.message video.video_id = true ∧
      err.cause = e := by
  refine ⟨_, rfl, ?_, rfl⟩
  show strContains ("Failed to extract places from video " ++
    video.video_id ++ ": " ++ e.pyStr) video.video_id = true
  have h : "Failed to extract places from video " ++ video.video_id ++
      ": " ++ e.pyStr =
      "Failed to extract places from video " ++ video.video_id ++
        (": " ++ e.pyStr) := by
    rw [String.append_assoc]
  rw [h]
  exact strContains_middle "Failed to extract places from video "
    video.video_id (": " ++ e.pyStr)

/-- Concrete instance of `claim_C9_get_or_create_idempotent`. -/
theorem claim_C9_get_or_create_idempotent_witness :
    get_or_create_session [("s1", Session.fresh "s1" 0)] (some "s1")
      "f1" 10 = (Session.fresh "s1" 0, [("s1", Session.fresh "s1" 0)]) ∧
    get_or_create_session
      ((get_or_create_session [("s1", Session.fresh "s1" 0)] (some "s1")
        "f1" 10).2) (some "s1") "f2" 20 =
      (Session.fresh "s1" 0, [("s1", Session.fresh "s1" 0)]) := by
  have h := claim_C9_get_or_create_idempotent
    [("s1", Session.fresh "s1" 0)] "s1" (Session.fresh "s1" 0)
    "f1" "f2" 10 20 3600 (by decide) (by rfl) (by decide)
  exact ⟨h.1, h.2.1⟩

/-- C5: the place-search tool returns exactly the places passing the
category filter (case-insensitive against the fixed enumeration;
unrecognized filter ignored rather than failing) and, when a query is
given, containing it as a case-insensitive substring of name,
description or mentioned-context — in the places' insertion order
(`List.filter` preserves order), truncated to the limit. -/
theorem claim_C5_search_contract (places : List Place)
    (query place_type : String) (limit : Nat) :
    search_places places query place_type limit =
      ((places.filter (fun p =>
          matchesTypeFilter place_type p && matchesQuery query p)).take
        limit).map placeToDict := by
  have hA : (if place_type ≠ "" then
        (match PlaceType.fromString place_type.toLower with
          | some filter_type =>
              places.filter (fun p => p.type == filter_type)
          | none => places)
      else places) =
      places.filter (fun p => matchesTypeFilter place_type p) := by
    by_cases hpt : place_type = ""
    · subst hpt
      simp [matchesTypeFilter]
    · rw [if_pos hpt]
      have hbe : (place_type == "") = false := by simp [hpt]
      cases hfs : PlaceType.fromString place_type.toLower with
      | some t =>
          exact List.filter_congr (fun p _ => by
            simp [matchesTypeFilter, hbe, hfs])
      | none =>
          calc places
              = places.filter (fun _ => true) :=
                (List.filter_true places).symm
            _ = places.filter (fun p => matchesTypeFilter place_type p) :=
                List.filter_congr (fun p _ => by
                  simp [matchesTypeFilter, hbe, hfs])
  have hB : ∀ l : List Place,
      (if query ≠ "" then
        l.filter (fun p =>
          lowerContains p.name query ||
          lowerContains p.description query ||
          lowerContains p.mentioned_context query)
      else l) = l.filter (fun p => matchesQuery query p) := by
    intro l
    by_cases hq : query = ""
    · subst hq
      simp [matchesQuery]
    · rw [if_pos hq]
      have hbe : (query == "") = false := by simp [hq]
      exact List.filter_congr (fun p _ => by simp [matchesQuery, hbe])
  show (((if query ≠ "" then
      (if place_type ≠ "" then
        (match PlaceType.fromString place_type.toLower with
          | some filter_type =>
              places.filter (fun p => p.type == filter_type)
          | none => places)
      else places).filter (fun p =>
        lowerContains p.name query ||
        lowerContains p.description query ||
        lowerContains p.mentioned_context query)
    else (if place_type ≠ "" then
        (match PlaceType.fromString place_type.toLower with
          | some filter_type =>
              places.filter (fun p => p.type == filter_type)
          | none => places)
      else places)).take limit).map placeToDict) = _
  rw [hB, hA, List.filter_filter]
  have hcomm : places.filter (fun a =>
      matchesQuery query a && matchesTypeFilter place_type a) =
      places.filter (fun p =>
        matchesTypeFilter place_type p && matchesQuery query p) :=
    List.filter_congr (fun p _ => Bool.and_comm _ _)
  rw [hcomm]

/-- C8: the transcript-lookup tool is total (a plain function into
`String`, no exception channel): when some video in the session has
the requested id it returns that video's transcript prefixed with its
title (the first such video, per `next(...)`), otherwise the explicit
not-found sentinel naming the id. -/
theorem claim_C8_transcript_tool (session : Session) (vid : String) :
    ((∃ v ∈ session.videos, v.video_id = vid) →
      ∃ v, v ∈ session.videos ∧ v.video_id = vid ∧
        get_video_transcript session vid =
          "Transcript for \x27" ++ v.title ++ "\x27:\n\n" ++ v.transcript) ∧
    ((∀ v ∈ session.videos, v.video_id ≠ vid) →
      get_video_transcript session vid =
        "Video " ++ vid ++ " not found in session.") := by
  constructor
  · rintro ⟨v, hv, hvid⟩
    cases hfind : session.videos.find? (fun v => v.video_id == vid) with
    | none =>
        rw [List.find?_eq_none] at hfind
        exact absurd (by simpa using hvid) (by simpa using hfind v hv)
    | some w =>
        refine ⟨w, List.mem_of_find?_eq_some hfind, ?_, ?_⟩
        · simpa using List.find?_some hfind
        · simp [get_video_transcript, hfind]
  · intro h
    have hfind : session.videos.find? (fun v => v.video_id == vid) =
        none := by
      rw [List.find?_eq_none]
      intro v hv
      simpa using h v hv
    simp [get_video_transcript, hfind]

/-- Concrete instance of `claim_C8_transcript_tool`: a present and an
absent video id. -/
theorem claim_C8_transcript_tool_witness :
    (∃ v, v ∈ c8Session.videos ∧ v.video_id = "v1" ∧
      get_video_transcript c8Session "v1" =
        "Transcript for \x27" ++ v.title ++ "\x27:\n\n" ++ v.transcript) ∧
    get_video_transcript c8Session "vX" =
      "Video " ++ "vX" ++ " not found in session." := by
  constructor
  · exact (claim_C8_transcript_tool c8Session "v1").1
      ⟨c8Video, by simp [c8Session], rfl⟩
  · refine (claim_C8_transcript_tool c8Session "vX").2 ?_
    intro v hv
    have : v = c8Video := by simpa [c8Session] using hv
    subst this
    decide

theorem execToolCalls_refs (session : Session) (tcs : List ToolCall) :
    (execToolCalls session tcs).2 = referencedIdsSpec session tcs := by
  induction tcs with
  | nil => rfl
  | cons tc rest ih =>
    cases tc with
    | search q pt lim => simp [execToolCalls, referencedIdsSpec, ih]
    | transcript vid => simp [execToolCalls, referencedIdsSpec, ih]
    | other nm => simpa [execToolCalls, referencedIdsSpec] using ih

/-- C6 counterexample: in the session `c6Session` (one video, one
place), the response `c6Response` requests a transcript lookup first
and a place search second. The search tool is among the tools invoked
and its invocation returns one (nonzero) result, yet the reply
`chat_with_agent` returns is the model's direct content
`"MODEL TEXT"`, not the synthesized formatting of the search results —
because the synthesis step looks only at `tool_results[0]`, which here
is the transcript string. -/
theorem claim_C6_counterexample :
    c6Response.tool_calls ≠ [] ∧
    (∃ q pt lim, ToolCall.search q pt lim ∈ c6Response.tool_calls) ∧
    search_places c6Session.places "" "" 10 ≠ [] ∧
    (chat_with_agent c6Session c6Response).1 = "MODEL TEXT" ∧
    (chat_with_agent c6Session c6Response).1 ≠
      formatSearchResponse (search_places c6Session.places "" "" 10) := by
  refine ⟨by decide, ⟨"", "", 10, by decide⟩, by decide, by decide,
    by decide⟩

/-- C6 (amended): when the *first* executed tool of the turn is the
place-search tool, the reply is the synthesized formatting of that
first search invocation's results (`formatSearchResponse` renders up
to the first 5 results, or the explicit no-matches message for zero
results); when a transcript lookup comes first the reply is the
model's direct content; and in every turn with at least one tool call,
each search invocation's returned dicts are matched back to canonical
places by exact name + video-id equality, their ids appended in the
order encountered (duplicates permitted). -/
theorem claim_C6_amended_reply_and_refs (session : Session)
    (response : LLMResponse) :
    (∀ (q pt : String) (lim : Nat) (rest : List ToolCall),
      response.tool_calls = .search q pt lim :: rest →
      (chat_with_agent session response).1 =
        formatSearchResponse (search_places session.places q pt lim)) ∧
    (∀ (vid : String) (rest : List ToolCall),
      response.tool_calls = .transcript vid :: rest →
      (chat_with_agent session response).1 = response.content) ∧
    (response.tool_calls ≠ [] →
      (chat_with_agent session response).2 =
        referencedIdsSpec session response.tool_calls) := by
  refine ⟨?_, ?_, ?_⟩
  · intro q pt lim rest h
    simp [chat_with_agent, h, execToolCalls]
  · intro vid rest h
    simp [chat_with_agent, h, execToolCalls]
  · intro h
    simp [chat_with_agent, h, execToolCalls_refs]

/-- Concrete instance of `claim_C6_amended_reply_and_refs`: a search
call in first position yields the synthesized reply, and the
referenced ids match the spec-side accumulator. -/
theorem claim_C6_amended_reply_and_refs_witness :
    (chat_with_agent c6Session
        { content := "X", tool_calls := [.search "" "" 10] }).1 =
      formatSearchResponse (search_places c6Session.places "" "" 10) ∧
    (chat_with_agent c6Session c6Response).2 =
      referencedIdsSpec c6Session c6Response.tool_calls := by
  constructor
  · exact (claim_C6_amended_reply_and_refs c6Session
      { content := "X", tool_calls := [.search "" "" 10] }).1
      "" "" 10 [] rfl
  · exact (claim_C6_amended_reply_and_refs c6Session c6Response).2.2
      (by decide)

/-- C1: the preference-update route never succeeds on a found place.
The `Place` pydantic model declares no `is_interested` /
`is_not_interested` fields (see `Place.fieldNames`), so the route
body's very first attribute assignment raises `ValueError`, which the
route's generic handler converts to an HTTP 500 — contradicting the
claimed successful update maintaining the mutual-exclusion invariant.
Evaluated here at a concrete live session and stored place for each of
the three preference values. -/
theorem claim_C1_preference_update_rejected :
    (update_place_preference c1Store 0 3600 "s1" "p1" .interested).1 =
      .error { status := 500
               detail :=
                 "\x22Place\x22 object has no field \x22is_interested\x22" } ∧
    (update_place_preference c1Store 0 3600 "s1" "p1" .not_interested).1 =
      .error { status := 500
               detail :=
                 "\x22Place\x22 object has no field \x22is_interested\x22" } ∧
    (update_place_preference c1Store 0 3600 "s1" "p1" .neutral).1 =
      .error { status := 500
               detail :=
                 "\x22Place\x22 object has no field \x22is_interested\x22" } ∧
    "is_interested" ∉ Place.fieldNames ∧
    "is_not_interested" ∉ Place.fieldNames := by
  refine ⟨rfl, rfl, rfl, by decide, by decide⟩

theorem execToolCalls_congr (s1 s2 : Session)
    (hv : s1.videos = s2.videos) (hp : s1.places = s2.places)
    (tcs : List ToolCall) :
    execToolCalls s1 tcs = execToolCalls s2 tcs := by
  induction tcs with
  | nil => rfl
  | cons tc rest ih =>
    cases tc with
    | search q pt lim => simp [execToolCalls, hp, ih]
    | transcript vid =>
        simp [execToolCalls, get_video_transcript, hv, ih]
    | other nm => simpa [execToolCalls] using ih

theorem chat_with_agent_congr (s1 s2 : Session)
    (hv : s1.videos = s2.videos) (hp : s1.places = s2.places)
    (response : LLMResponse) :
    chat_with_agent s1 response = chat_with_agent s2 response := by
  simp only [chat_with_agent, execToolCalls_congr s1 s2 hv hp]

/-- C10: a chat request whose session id is falsy or absent never
fails with a session-not-found error (the handler resolves the session
with the total `get_or_create_session`, so the embedding is a plain
function): it runs the turn against a fresh empty session, stores that
session with the user/assistant message pair appended as its entire
history, and returns a `ChatResponse` that does not carry the
generated id — made precise by the final conjunct: the response part
is identical whatever fresh id was generated. -/
theorem claim_C10_chat_fresh_session (store : Store) (sid : Option String)
    (msg : String) (resp : LLMResponse) (freshId : String) (now : Int)
    (hf : sid = none ∨ sid = some "" ∨
      ∃ i, sid = some i ∧ store.lookup i = none) :
    (chat_endpoint store sid msg resp freshId now).1.message =
      (chat_with_agent (Session.fresh freshId now) resp).1 ∧
    (chat_endpoint store sid msg resp freshId now).1.places_referenced =
      (chat_with_agent (Session.fresh freshId now) resp).2 ∧
    (chat_endpoint store sid msg resp freshId now).1.sources = [] ∧
    (chat_endpoint store sid msg resp freshId now).2.lookup freshId =
      some { session_id := freshId, videos := [], places := []
             chat_history :=
               [{ role := "user", content := msg, timestamp := now
                  places_referenced := [] },
                { role := "assistant"
                  content :=
                    (chat_with_agent (Session.fresh freshId now) resp).1
                  timestamp := now
                  places_referenced :=
                    (chat_with_agent (Session.fresh freshId now) resp).2 }]
             created_at := now, last_activity := now } ∧
    (∀ fid2 : String,
      (chat_endpoint store sid msg resp freshId now).1 =
        (chat_endpoint store sid msg resp fid2 now).1) := by
  have hcomp : ∀ fid : String,
      chat_endpoint store sid msg resp fid now =
      ({ message := (chat_with_agent (Session.fresh fid now) resp).1
         places_referenced := (chat_with_agent (Session.fresh fid now) resp).2
         sources := [] },
       dictSet (dictSet store fid (Session.fresh fid now)) fid
         { session_id := fid, videos := [], places := []
           chat_history :=
             [{ role := "user", content := msg, timestamp := now
                places_referenced := [] },
              { role := "assistant"
                content := (chat_with_agent (Session.fresh fid now) resp).1
                timestamp := now
                places_referenced :=
                  (chat_with_agent (Session.fresh fid now) resp).2 }]
           created_at := now, last_activity := now }) := by
    intro fid
    simp only [chat_endpoint,
      get_or_create_session_fresh store sid fid now hf]
    simp [update_session, Session.fresh]
  refine ⟨?_, ?_, ?_, ?_, ?_⟩
  · rw [hcomp freshId]
  · rw [hcomp freshId]
  · rw [hcomp freshId]
  · rw [hcomp freshId]
    exact dictSet_lookup_self _ freshId _
  · intro fid2
    rw [hcomp freshId, hcomp fid2]
    have hca : chat_with_agent (Session.fresh freshId now) resp =
        chat_with_agent (Session.fresh fid2 now) resp :=
      chat_with_agent_congr (Session.fresh freshId now)
        (Session.fresh fid2 now) rfl rfl resp
    rw [hca]

/-- Concrete instance of `claim_C10_chat_fresh_session`: an empty
store, no session id supplied. -/
theorem claim_C10_chat_fresh_session_witness :
    (chat_endpoint [] none "hi" { content := "C", tool_calls := [] }
        "f1" 9).1.message =
      (chat_with_agent (Session.fresh "f1" 9)
        { content := "C", tool_calls := [] }).1 ∧
    (chat_endpoint [] none "hi" { content := "C", tool_calls := [] }
        "f1" 9).2.lookup "f1" =
      some { session_id := "f1", videos := [], places := []
             chat_history :=
               [{ role := "user", content := "hi", timestamp := 9
                  places_referenced := [] },
                { role := "assistant"
                  content := (chat_with_agent (Session.fresh "f1" 9)
                    { content := "C", tool_calls := [] }).1
                  timestamp := 9
                  places_referenced :=
                    (chat_with_agent (Session.fresh "f1" 9)
                      { content := "C", tool_calls := [] }).2 }]
             created_at := 9, last_activity := 9 } := by
  have h := claim_C10_chat_fresh_session [] none "hi"
    { content := "C", tool_calls := [] } "f1" 9 (Or.inl rfl)
  exact ⟨h.1, h.2.2.2.1⟩

end TravelPlanner
